import Mathlib

/-!
Shallow embedding of the mcp-ox typed message and content model
(src/protocol.rs, src/prompt.rs, src/resource.rs) together with the serde
serialization behaviour the derive attributes induce, and proofs of the
specification claims about it.

JSON values are modelled by the `Json` inductive; serde_json numbers are
modelled as `Int` (the only numeric fields in play are `i32` error codes
and opaque `Value` payloads).  Objects are ordered association lists; field
lookup takes the first occurrence (serialization never produces duplicate
keys, and no claim concerns duplicate-key inputs).  `Option<T>` struct
fields follow serde's derive semantics: a missing key or an explicit
`null` decodes to `None`, and fields marked
`#[serde(skip_serializing_if = "Option::is_none")]` are omitted from
output when `None`.  Unknown object keys are ignored on decode, as for any
serde struct without `deny_unknown_fields`.
-/

/-- JSON values, standing for serde_json::Value. -/
inductive Json where
  | null
  | bool (b : Bool)
  | num (n : Int)
  | str (s : String)
  | arr (elems : List Json)
  | obj (fields : List (String × Json))

/-- First-occurrence field lookup in a JSON object's field list. -/
def jGet : List (String × Json) → String → Option Json
  | [], _ => none
  | (k, v) :: rest, key => if k = key then some v else jGet rest key

/-- Whether a JSON value is an object carrying the key `k`. -/
def hasKey (j : Json) (k : String) : Bool :=
  match j with
  | .obj fields => fields.any (fun p => p.1 == k)
  | _ => false

/-- Decoding a required `String` field: the key must be present and hold a
JSON string. -/
def decodeStringField (o : List (String × Json)) (k : String) : Option String :=
  match jGet o k with
  | some (.str s) => some s
  | _ => none

/-- Decoding a required `i32` field; the `i32` range is abstracted to `Int`. -/
def decodeIntField (o : List (String × Json)) (k : String) : Option Int :=
  match jGet o k with
  | some (.num n) => some n
  | _ => none

/-- serde semantics of an `Option<Value>` struct field: missing key or
`null` is `None`, anything else is kept as `Some`; this never fails. -/
def jNullableOpt : Option Json → Option (Option Json)
  | none => some none
  | some .null => some none
  | some v => some (some v)

/-- serde semantics of an `Option<String>` struct field: missing key or
`null` is `None`, a string is `Some`, any other value is a decode error. -/
def jNullableStr : Option Json → Option (Option String)
  | none => some none
  | some .null => some none
  | some (.str s) => some (some s)
  | some _ => none

/-- serde semantics of an `Option<Vec<Value>>` struct field. -/
def jNullableArr : Option Json → Option (Option (List Json))
  | none => some none
  | some .null => some none
  | some (.arr l) => some (some l)
  | some _ => none

/-- Encoding of an optional raw-`Value` field under
`skip_serializing_if = "Option::is_none"`. -/
def optField (k : String) : Option Json → List (String × Json)
  | some v => [(k, v)]
  | none => []

/-- Encoding of an optional string field under
`skip_serializing_if = "Option::is_none"`. -/
def optStrField (k : String) : Option String → List (String × Json)
  | some s => [(k, .str s)]
  | none => []

/-- protocol.rs: `JsonRpcRequest`. -/
structure JsonRpcRequest where
  jsonrpc : String
  id : Option Json
  method : String
  params : Option Json

/-- protocol.rs: `ErrorData`; `code: i32` is modelled as `Int`. -/
structure ErrorData where
  code : Int
  message : String
  data : Option Json

/-- protocol.rs: `JsonRpcResponse`. -/
structure JsonRpcResponse where
  jsonrpc : String
  id : Option Json
  result : Option Json
  error : Option ErrorData

/-- protocol.rs: `JsonRpcNotification`. -/
structure JsonRpcNotification where
  jsonrpc : String
  method : String
  params : Option Json

/-- protocol.rs: `JsonRpcError`. -/
structure JsonRpcError where
  jsonrpc : String
  id : Option Json
  error : ErrorData

/-- protocol.rs: the untagged `JsonRpcMessage` enum. -/
inductive JsonRpcMessage where
  | request (r : JsonRpcRequest)
  | response (r : JsonRpcResponse)
  | notification (n : JsonRpcNotification)
  | error (e : JsonRpcError)
  | nil

/-- Derived serde serialization of `JsonRpcRequest`. -/
def encodeJsonRpcRequest (r : JsonRpcRequest) : Json :=
  .obj ([("jsonrpc", .str r.jsonrpc)] ++ optField "id" r.id
    ++ [("method", .str r.method)] ++ optField "params" r.params)

/-- Derived serde serialization of `ErrorData`. -/
def encodeErrorData (ed : ErrorData) : Json :=
  .obj ([("code", .num ed.code), ("message", .str ed.message)]
    ++ optField "data" ed.data)

/-- Derived serde serialization of `JsonRpcResponse`. -/
def encodeJsonRpcResponse (r : JsonRpcResponse) : Json :=
  .obj ([("jsonrpc", .str r.jsonrpc)] ++ optField "id" r.id
    ++ optField "result" r.result
    ++ (match r.error with
        | some ed => [("error", encodeErrorData ed)]
        | none => []))

/-- Derived serde serialization of `JsonRpcNotification`. -/
def encodeJsonRpcNotification (n : JsonRpcNotification) : Json :=
  .obj ([("jsonrpc", .str n.jsonrpc), ("method", .str n.method)]
    ++ optField "params" n.params)

/-- Derived serde serialization of `JsonRpcError`. -/
def encodeJsonRpcError (e : JsonRpcError) : Json :=
  .obj ([("jsonrpc", .str e.jsonrpc)] ++ optField "id" e.id
    ++ [("error", encodeErrorData e.error)])

/-- Derived serde serialization of the untagged `JsonRpcMessage`: the
serialization of the active variant; the unit variant `Nil` serializes as
`null`. -/
def encodeJsonRpcMessage : JsonRpcMessage → Json
  | .request r => encodeJsonRpcRequest r
  | .response r => encodeJsonRpcResponse r
  | .notification n => encodeJsonRpcNotification n
  | .error e => encodeJsonRpcError e
  | .nil => .null

/-- Derived serde deserialization of `JsonRpcRequest`. -/
def decodeJsonRpcRequest (j : Json) : Option JsonRpcRequest :=
  match j with
  | .obj o =>
    match decodeStringField o "jsonrpc", decodeStringField o "method",
        jNullableOpt (jGet o "id"), jNullableOpt (jGet o "params") with
    | some js, some m, some i, some p => some ⟨js, i, m, p⟩
    | _, _, _, _ => none
  | _ => none

/-- Derived serde deserialization of `ErrorData`. -/
def decodeErrorData (j : Json) : Option ErrorData :=
  match j with
  | .obj o =>
    match decodeIntField o "code", decodeStringField o "message",
        jNullableOpt (jGet o "data") with
    | some c, some m, some d => some ⟨c, m, d⟩
    | _, _, _ => none
  | _ => none

/-- serde semantics of the `Option<ErrorData>` field of `JsonRpcResponse`:
missing or `null` is `None`; any other value must decode as `ErrorData`. -/
def jNullableErrorData : Option Json → Option (Option ErrorData)
  | none => some none
  | some .null => some none
  | some v => (decodeErrorData v).map some

/-- Derived serde deserialization of `JsonRpcResponse`. -/
def decodeJsonRpcResponse (j : Json) : Option JsonRpcResponse :=
  match j with
  | .obj o =>
    match decodeStringField o "jsonrpc", jNullableOpt (jGet o "id"),
        jNullableOpt (jGet o "result"), jNullableErrorData (jGet o "error") with
    | some js, some i, some r, some e => some ⟨js, i, r, e⟩
    | _, _, _, _ => none
  | _ => none

/-- Derived serde deserialization of `JsonRpcNotification`. -/
def decodeJsonRpcNotification (j : Json) : Option JsonRpcNotification :=
  match j with
  | .obj o =>
    match decodeStringField o "jsonrpc", decodeStringField o "method",
        jNullableOpt (jGet o "params") with
    | some js, some m, some p => some ⟨js, m, p⟩
    | _, _, _ => none
  | _ => none

/-- Derived serde deserialization of `JsonRpcError`. -/
def decodeJsonRpcError (j : Json) : Option JsonRpcError :=
  match j with
  | .obj o =>
    match decodeStringField o "jsonrpc", jNullableOpt (jGet o "id"),
        (jGet o "error").bind decodeErrorData with
    | some js, some i, some e => some ⟨js, i, e⟩
    | _, _, _ => none
  | _ => none

/-- Derived serde deserialization of the untagged `JsonRpcMessage`: each
variant is tried in declaration order (Request, Response, Notification,
Error, Nil) and the first success wins. -/
def decodeJsonRpcMessage (j : Json) : Option JsonRpcMessage :=
  match decodeJsonRpcRequest j with
  | some r => some (.request r)
  | none =>
    match decodeJsonRpcResponse j with
    | some r => some (.response r)
    | none =>
      match decodeJsonRpcNotification j with
      | some n => some (.notification n)
      | none =>
        match decodeJsonRpcError j with
        | some e => some (.error e)
        | none =>
          match j with
          | .null => some .nil
          | _ => none

/-- protocol.rs: `PARSE_ERROR`. -/
def PARSE_ERROR : Int := -32700

/-- protocol.rs: `INVALID_REQUEST`. -/
def INVALID_REQUEST : Int := -32600

/-- protocol.rs: `METHOD_NOT_FOUND`. -/
def METHOD_NOT_FOUND : Int := -32601

/-- protocol.rs: `INVALID_PARAMS`. -/
def INVALID_PARAMS : Int := -32602

/-- protocol.rs: `INTERNAL_ERROR`. -/
def INTERNAL_ERROR : Int := -32603

/-- protocol.rs: the `ProtocolError` taxonomy; each member carries its
message string. -/
inductive ProtocolError where
  | transportError (msg : String)
  | parseError (msg : String)
  | protocolError (msg : String)
  | methodNotImplemented (msg : String)
  | invalidParams (msg : String)
  | internalError (msg : String)

/-- protocol.rs: `impl From<ProtocolError> for ErrorData`. -/
def ErrorData.fromProtocolError : ProtocolError → ErrorData
  | .transportError msg => ⟨INTERNAL_ERROR, msg, none⟩
  | .parseError msg => ⟨PARSE_ERROR, msg, none⟩
  | .protocolError msg => ⟨INVALID_REQUEST, msg, none⟩
  | .methodNotImplemented msg => ⟨METHOD_NOT_FOUND, msg, none⟩
  | .invalidParams msg => ⟨INVALID_PARAMS, msg, none⟩
  | .internalError msg => ⟨INTERNAL_ERROR, msg, none⟩

/-- String helper: does `s` start with the literal `pat`? Stands for Rust's
`str::starts_with` on string patterns, computed on the character lists. -/
def chrsStarts : List Char → List Char → Bool
  | [], _ => true
  | _ :: _, [] => false
  | p :: ps, c :: cs => p == c && chrsStarts ps cs

/-- `strStarts s pat` is `s.starts_with(pat)`. -/
def strStarts (s pat : String) : Bool := chrsStarts pat.data s.data

/-- Value of one character in the standard base64 alphabet
(A-Z, a-z, 0-9, +, /), or `none` for any other character. -/
def b64Val (c : Char) : Option Nat :=
  if 'A' ≤ c ∧ c ≤ 'Z' then some (c.toNat - 65)
  else if 'a' ≤ c ∧ c ≤ 'z' then some (c.toNat - 71)
  else if '0' ≤ c ∧ c ≤ '9' then some (c.toNat + 4)
  else if c = '+' then some 62
  else if c = '/' then some 63
  else none

/-- Chunkwise standard base64 decoding with required canonical padding:
the input length must be a multiple of four, `=` may appear only as the
final one or two characters, and trailing bits left over by a padded final
chunk must be zero (the base64 crate's `BASE64_STANDARD` engine rejects
non-canonical trailing bits). -/
def b64DecodeChunks : List Char → Option (List Nat)
  | [] => some []
  | c1 :: c2 :: c3 :: c4 :: rest =>
    match b64Val c1, b64Val c2 with
    | some v1, some v2 =>
      if c3 = '=' then
        if c4 = '=' ∧ rest = [] ∧ v2 % 16 = 0 then
          some [v1 * 4 + v2 / 16]
        else none
      else
        match b64Val c3 with
        | some v3 =>
          if c4 = '=' then
            if rest = [] ∧ v3 % 4 = 0 then
              some [v1 * 4 + v2 / 16, (v2 % 16) * 16 + v3 / 4]
            else none
          else
            match b64Val c4 with
            | some v4 =>
              match b64DecodeChunks rest with
              | some bs =>
                some ([v1 * 4 + v2 / 16, (v2 % 16) * 16 + v3 / 4,
                  (v3 % 4) * 64 + v4] ++ bs)
              | none => none
            | none => none
        | none => none
    | _, _ => none
  | _ => none

/-- `BASE64_STANDARD.decode` of prompt.rs: decodes a string to its bytes
(as `Nat`s below 256), or fails. -/
def base64Decode (s : String) : Option (List Nat) := b64DecodeChunks s.data

/-- prompt.rs: `PromptError`. -/
inductive PromptError where
  | invalidParameters (msg : String)
  | other (msg : String)
  deriving DecidableEq

/-- prompt.rs: `TextContent`. -/
structure TextContent where
  text : String

/-- prompt.rs: `ImageContent`. -/
structure ImageContent where
  data : String
  mime_type : String

/-- prompt.rs: the bon-generated `ImageContentBuilder` state; both custom
fields start at `Default::default()`, the empty string. -/
structure ImageContentBuilder where
  data_val : String := ""
  mime_type_val : String := ""

/-- prompt.rs: `ImageContentBuilder::data` — validates that the supplied
data decodes as standard base64 before storing it. -/
def ImageContentBuilder.data (b : ImageContentBuilder) (d : String) :
    Except PromptError ImageContentBuilder :=
  match base64Decode d with
  | none => .error (.invalidParameters "Image data must be valid base64")
  | some _ => .ok { b with data_val := d }

/-- prompt.rs: `ImageContentBuilder::mime_type` — validates that the MIME
string has the literal prefix `image/` before storing it. -/
def ImageContentBuilder.mime_type (b : ImageContentBuilder) (m : String) :
    Except PromptError ImageContentBuilder :=
  if strStarts m "image/" then .ok { b with mime_type_val := m }
  else .error
    (.invalidParameters "MIME type must be a valid image type (e.g. image/jpeg)")

/-- prompt.rs: finishing the `ImageContent` builder. -/
def ImageContentBuilder.build (b : ImageContentBuilder) : ImageContent :=
  ⟨b.data_val, b.mime_type_val⟩

/-- prompt.rs: `TextResourceContents`. -/
structure TextResourceContents where
  uri : String
  mime_type : Option String
  text : String

/-- prompt.rs: `EmbeddedResource`. -/
structure EmbeddedResource where
  resource : TextResourceContents

/-- prompt.rs: `PromptMessageRole`. -/
inductive PromptMessageRole where
  | user
  | assistant
  deriving DecidableEq

/-- prompt.rs: `PromptMessageContent`; the `Resource` variant is a struct
variant holding an `EmbeddedResource`. -/
inductive PromptMessageContent where
  | text (t : TextContent)
  | image (i : ImageContent)
  | resource (resource : EmbeddedResource)

/-- prompt.rs: `PromptMessage`. -/
structure PromptMessage where
  content : PromptMessageContent
  role : PromptMessageRole

/-- prompt.rs: the bon-generated `PromptMessageBuilder` state; the content
field starts at `PromptMessageContent::default()`, text with the empty
string; the role is set by its ordinary setter before `build`. -/
structure PromptMessageBuilder where
  content_val : PromptMessageContent := .text ⟨""⟩

/-- prompt.rs: `PromptMessageBuilder::content` — when the value is an
`Image`, validates its base64 data and then its `image/` MIME prefix;
other content values are stored unchecked. -/
def PromptMessageBuilder.content (b : PromptMessageBuilder)
    (c : PromptMessageContent) : Except PromptError PromptMessageBuilder :=
  match c with
  | .image img =>
    match base64Decode img.data with
    | none => .error (.invalidParameters "Image data must be valid base64")
    | some _ =>
      if strStarts img.mime_type "image/" then .ok { b with content_val := c }
      else .error
        (.invalidParameters "MIME type must be a valid image type (e.g. image/jpeg)")
  | _ => .ok { b with content_val := c }

/-- prompt.rs: finishing the `PromptMessage` builder with the chosen role. -/
def PromptMessageBuilder.build (b : PromptMessageBuilder)
    (role : PromptMessageRole) : PromptMessage :=
  ⟨b.content_val, role⟩

/-- prompt.rs: `PromptMessage::new_image` — the same two validations as the
builder paths, then direct construction. -/
def PromptMessage.new_image (role : PromptMessageRole) (data mime_type : String) :
    Except PromptError PromptMessage :=
  match base64Decode data with
  | none => .error (.invalidParameters "Image data must be valid base64")
  | some _ =>
    if strStarts mime_type "image/" then
      .ok ⟨.image ⟨data, mime_type⟩, role⟩
    else .error
      (.invalidParameters "MIME type must be a valid image type (e.g. image/jpeg)")

/-- prompt.rs: `PromptMessage::new_resource` — no validation beyond the
structural fields. -/
def PromptMessage.new_resource (role : PromptMessageRole) (uri : String)
    (mime_type : Option String) (text : String) : PromptMessage :=
  ⟨.resource ⟨⟨uri, mime_type, text⟩⟩, role⟩

/-- prompt.rs: `Prompt`; `arguments: Option<Vec<Value>>` holds raw JSON
schema fragments. -/
structure Prompt where
  arguments : Option (List Json)
  name : String
  description : Option String

/-- Splitting a character list on a separator, with Rust `str::split`
semantics: the empty input yields one empty segment. -/
def splitOnChar (sep : Char) : List Char → List (List Char)
  | [] => [[]]
  | c :: rest =>
    let r := splitOnChar sep rest
    if c = sep then [] :: r
    else
      match r with
      | [] => [[c]]
      | seg :: segs => (c :: seg) :: segs

/-- Parsed URL as produced by the url crate's `Url::parse`: the canonical
pieces the repository reads back. `cannotBeABase` marks URLs such as
`mailto:` ones whose path is opaque and has no segments. -/
structure Url where
  scheme : String
  authority : Option String
  path : String
  cannotBeABase : Bool

/-- `Url::to_string`: the canonical serialization re-assembled from the
parsed pieces. -/
def Url.toStr (u : Url) : String :=
  u.scheme ++ ":"
    ++ (match u.authority with
        | some a => "//" ++ a
        | none => "")
    ++ u.path

/-- `Url::path_segments`: `None` for a cannot-be-a-base URL, else the
path after its leading slash split on `/`. -/
def Url.path_segments (u : Url) : Option (List String) :=
  if u.cannotBeABase then none
  else some ((splitOnChar '/' (u.path.data.drop 1)).map String.mk)

/-- Parsed MIME type as produced by the mime crate; only its canonical
string rendering is consumed by the repository. -/
structure Mime where
  toStr : String

/-- resource.rs: `Resource`. -/
structure Resource where
  uri : String
  mime_type : String
  name : String
  description : Option String

/-- resource.rs: the bon-generated `ResourceBuilder` state with the
declared initial field values: `mime_type` starts at `"text/plain"` and
`name` at `"unnamed"`. -/
structure ResourceBuilder where
  uri_val : String := ""
  mime_type_val : String := "text/plain"
  name_val : String := "unnamed"
  description_val : Option String := none

/-- resource.rs: `Resource::builder()`. -/
def Resource.builder : ResourceBuilder := {}

/-- resource.rs: `ResourceBuilder::uri` — stores the canonical string of
an already-parsed URL. -/
def ResourceBuilder.uri (b : ResourceBuilder) (u : Url) : ResourceBuilder :=
  { b with uri_val := u.toStr }

/-- resource.rs: `ResourceBuilder::mime_type` — stores the string form of
an already-parsed MIME type. -/
def ResourceBuilder.mime_type (b : ResourceBuilder) (m : Mime) : ResourceBuilder :=
  { b with mime_type_val := m.toStr }

/-- resource.rs: `ResourceBuilder::name`. -/
def ResourceBuilder.name (b : ResourceBuilder) (n : String) : ResourceBuilder :=
  { b with name_val := n }

/-- resource.rs: `ResourceBuilder::name_from_uri` — the URI's last path
segment, falling back to `"unnamed"` when the URL has no path segments. -/
def ResourceBuilder.name_from_uri (b : ResourceBuilder) (u : Url) : ResourceBuilder :=
  { b with name_val := ((u.path_segments).bind List.getLast?).getD "unnamed" }

/-- resource.rs: `ResourceBuilder::description` (the bon setter for the
plain optional member). -/
def ResourceBuilder.description (b : ResourceBuilder) (d : String) : ResourceBuilder :=
  { b with description_val := some d }

/-- resource.rs: finishing the `Resource` builder. -/
def ResourceBuilder.build (b : ResourceBuilder) : Resource :=
  ⟨b.uri_val, b.mime_type_val, b.name_val, b.description_val⟩

/-- resource.rs: the untagged `ResourceContent` enum. -/
inductive ResourceContent where
  | textResourceContents (uri : String) (mime_type : Option String) (text : String)
  | blobResourceContent (uri : String) (mime_type : Option String) (blob : String)

/-- Derived serde deserialization of `ResourceContent`'s first
(`TextResourceContents`) shape: `uri` and `text` required, `mimeType`
optional. -/
def decodeRCText (j : Json) : Option ResourceContent :=
  match j with
  | .obj o =>
    match decodeStringField o "uri", jNullableStr (jGet o "mimeType"),
        decodeStringField o "text" with
    | some u, some mt, some t => some (.textResourceContents u mt t)
    | _, _, _ => none
  | _ => none

/-- Derived serde deserialization of `ResourceContent`'s second
(`BlobResourceContent`) shape: `uri` and `blob` required, `mimeType`
optional. -/
def decodeRCBlob (j : Json) : Option ResourceContent :=
  match j with
  | .obj o =>
    match decodeStringField o "uri", jNullableStr (jGet o "mimeType"),
        decodeStringField o "blob" with
    | some u, some mt, some b => some (.blobResourceContent u mt b)
    | _, _, _ => none
  | _ => none

/-- Derived serde deserialization of the untagged `ResourceContent`: the
text shape is tried first, then the blob shape. -/
def decodeResourceContent (j : Json) : Option ResourceContent :=
  match decodeRCText j with
  | some r => some r
  | none => decodeRCBlob j

/-- Derived serde serialization of `ResourceContent`. -/
def encodeResourceContent : ResourceContent → Json
  | .textResourceContents u mt t =>
    .obj ([("uri", .str u)] ++ optStrField "mimeType" mt ++ [("text", .str t)])
  | .blobResourceContent u mt b =>
    .obj ([("uri", .str u)] ++ optStrField "mimeType" mt ++ [("blob", .str b)])

/-- Derived serde serialization of `Resource` (camelCase field names). -/
def encodeResource (r : Resource) : Json :=
  .obj ([("uri", .str r.uri), ("mimeType", .str r.mime_type),
    ("name", .str r.name)] ++ optStrField "description" r.description)

/-- Derived serde deserialization of `Resource`. -/
def decodeResource (j : Json) : Option Resource :=
  match j with
  | .obj o =>
    match decodeStringField o "uri", decodeStringField o "mimeType",
        decodeStringField o "name", jNullableStr (jGet o "description") with
    | some u, some mt, some n, some d => some ⟨u, mt, n, d⟩
    | _, _, _, _ => none
  | _ => none

/-- Derived serde serialization of `TextResourceContents` (camelCase). -/
def encodeTextResourceContents (t : TextResourceContents) : Json :=
  .obj ([("uri", .str t.uri)] ++ optStrField "mimeType" t.mime_type
    ++ [("text", .str t.text)])

/-- Derived serde deserialization of `TextResourceContents`. -/
def decodeTextResourceContents (j : Json) : Option TextResourceContents :=
  match j with
  | .obj o =>
    match decodeStringField o "uri", jNullableStr (jGet o "mimeType"),
        decodeStringField o "text" with
    | some u, some mt, some t => some ⟨u, mt, t⟩
    | _, _, _ => none
  | _ => none

/-- Derived serde serialization of `EmbeddedResource`. -/
def encodeEmbeddedResource (er : EmbeddedResource) : Json :=
  .obj [("resource", encodeTextResourceContents er.resource)]

/-- Derived serde deserialization of `EmbeddedResource`. -/
def decodeEmbeddedResource (j : Json) : Option EmbeddedResource :=
  match j with
  | .obj o =>
    match (jGet o "resource").bind decodeTextResourceContents with
    | some t => some ⟨t⟩
    | none => none
  | _ => none

/-- Derived serde serialization of `PromptMessageRole` (lowercase). -/
def encodePromptMessageRole : PromptMessageRole → Json
  | .user => .str "user"
  | .assistant => .str "assistant"

/-- Derived serde deserialization of `PromptMessageRole`. -/
def decodePromptMessageRole (j : Json) : Option PromptMessageRole :=
  match j with
  | .str "user" => some .user
  | .str "assistant" => some .assistant
  | _ => none

/-- Derived serde serialization of the internally tagged
`PromptMessageContent` (`tag = "type"`, lowercase variant names, camelCase
field names). -/
def encodePromptMessageContent : PromptMessageContent → Json
  | .text t => .obj [("type", .str "text"), ("text", .str t.text)]
  | .image i =>
    .obj [("type", .str "image"), ("data", .str i.data),
      ("mimeType", .str i.mime_type)]
  | .resource r => .obj [("type", .str "resource"), ("resource", encodeEmbeddedResource r)]

/-- Derived serde deserialization of the internally tagged
`PromptMessageContent`: dispatch on the `type` field, then decode the
variant's own fields from the same object. -/
def decodePromptMessageContent (j : Json) : Option PromptMessageContent :=
  match j with
  | .obj o =>
    match jGet o "type" with
    | some (.str "text") =>
      match decodeStringField o "text" with
      | some s => some (.text ⟨s⟩)
      | none => none
    | some (.str "image") =>
      match decodeStringField o "data", decodeStringField o "mimeType" with
      | some d, some m => some (.image ⟨d, m⟩)
      | _, _ => none
    | some (.str "resource") =>
      match (jGet o "resource").bind decodeEmbeddedResource with
      | some er => some (.resource er)
      | none => none
    | _ => none
  | _ => none

/-- Derived serde serialization of `PromptMessage`. -/
def encodePromptMessage (pm : PromptMessage) : Json :=
  .obj [("content", encodePromptMessageContent pm.content),
    ("role", encodePromptMessageRole pm.role)]

/-- Derived serde deserialization of `PromptMessage`. -/
def decodePromptMessage (j : Json) : Option PromptMessage :=
  match j with
  | .obj o =>
    match (jGet o "content").bind decodePromptMessageContent,
        (jGet o "role").bind decodePromptMessageRole with
    | some c, some r => some ⟨c, r⟩
    | _, _ => none
  | _ => none

/-- Derived serde serialization of `Prompt` (declaration order: arguments,
name, description; camelCase). -/
def encodePrompt (p : Prompt) : Json :=
  .obj ((match p.arguments with
      | some l => [("arguments", .arr l)]
      | none => [])
    ++ [("name", .str p.name)] ++ optStrField "description" p.description)

/-- Derived serde deserialization of `Prompt`. -/
def decodePrompt (j : Json) : Option Prompt :=
  match j with
  | .obj o =>
    match jNullableArr (jGet o "arguments"), decodeStringField o "name",
        jNullableStr (jGet o "description") with
    | some args, some n, some d => some ⟨args, n, d⟩
    | _, _, _ => none
  | _ => none

/-- Claim C2: the conversion from `ProtocolError` to `ErrorData` is total,
preserves the carried message unchanged, sets `data` to `None`, and assigns
the fixed code per taxonomy member: transport and internal errors map to
-32603, parse errors to -32700, protocol errors to -32600,
method-not-implemented to -32601, invalid-params to -32602; in particular
`ProtocolError::MethodNotImplemented("foo")` converts to
`ErrorData { code: -32601, message: "foo", data: None }`. -/
theorem c2_protocol_error_to_error_data :
    (∀ s, ErrorData.fromProtocolError (.transportError s) = ⟨-32603, s, none⟩)
    ∧ (∀ s, ErrorData.fromProtocolError (.internalError s) = ⟨-32603, s, none⟩)
    ∧ (∀ s, ErrorData.fromProtocolError (.parseError s) = ⟨-32700, s, none⟩)
    ∧ (∀ s, ErrorData.fromProtocolError (.protocolError s) = ⟨-32600, s, none⟩)
    ∧ (∀ s, ErrorData.fromProtocolError (.methodNotImplemented s) = ⟨-32601, s, none⟩)
    ∧ (∀ s, ErrorData.fromProtocolError (.invalidParams s) = ⟨-32602, s, none⟩)
    ∧ ErrorData.fromProtocolError (.methodNotImplemented "foo")
        = ⟨METHOD_NOT_FOUND, "foo", none⟩ :=
  ⟨fun _ => rfl, fun _ => rfl, fun _ => rfl, fun _ => rfl, fun _ => rfl,
    fun _ => rfl, rfl⟩

/-- Claim C9: with no MIME type supplied the built `Resource`'s
`mime_type` is `"text/plain"`, and the `mime_type` builder method stores
the supplied `Mime` value's string form without touching any other
builder field. -/
theorem c9_resource_mime_type_default_and_setter :
    (∀ u : Url, ((Resource.builder.uri u).build).mime_type = "text/plain")
    ∧ Resource.builder.build.mime_type = "text/plain"
    ∧ (∀ (b : ResourceBuilder) (m : Mime),
        (b.mime_type m).mime_type_val = m.toStr
        ∧ (b.mime_type m).uri_val = b.uri_val
        ∧ (b.mime_type m).name_val = b.name_val
        ∧ (b.mime_type m).description_val = b.description_val)
    ∧ (∀ (b : ResourceBuilder) (m : Mime), ((b.mime_type m).build).mime_type = m.toStr) :=
  ⟨fun _ => rfl, rfl, fun _ _ => ⟨rfl, rfl, rfl, rfl⟩, fun _ _ => rfl⟩

/-- Claim C7: serialization of the envelope and content types emits a key
for each optional field exactly when the field is `Some` (an absent field
produces no key at all, never a `null`); in particular a `JsonRpcResponse`
with `result = Some(v)` and `error = None` serializes with no `error` key
present. -/
theorem c7_optional_fields_omitted :
    (∀ (js : String) (i : Option Json) (v : Json),
        hasKey (encodeJsonRpcResponse ⟨js, i, some v, none⟩) "error" = false)
    ∧ (∀ r : JsonRpcResponse, hasKey (encodeJsonRpcResponse r) "error" = r.error.isSome)
    ∧ (∀ r : JsonRpcResponse, hasKey (encodeJsonRpcResponse r) "result" = r.result.isSome)
    ∧ (∀ r : JsonRpcResponse, hasKey (encodeJsonRpcResponse r) "id" = r.id.isSome)
    ∧ (∀ r : JsonRpcRequest, hasKey (encodeJsonRpcRequest r) "id" = r.id.isSome)
    ∧ (∀ r : JsonRpcRequest, hasKey (encodeJsonRpcRequest r) "params" = r.params.isSome)
    ∧ (∀ n : JsonRpcNotification, hasKey (encodeJsonRpcNotification n) "params" = n.params.isSome)
    ∧ (∀ e : JsonRpcError, hasKey (encodeJsonRpcError e) "id" = e.id.isSome)
    ∧ (∀ ed : ErrorData, hasKey (encodeErrorData ed) "data" = ed.data.isSome)
    ∧ (∀ p : Prompt, hasKey (encodePrompt p) "description" = p.description.isSome)
    ∧ (∀ p : Prompt, hasKey (encodePrompt p) "arguments" = p.arguments.isSome)
    ∧ (∀ r : Resource, hasKey (encodeResource r) "description" = r.description.isSome)
    ∧ (∀ t : TextResourceContents,
        hasKey (encodeTextResourceContents t) "mimeType" = t.mime_type.isSome)
    ∧ (∀ u t, hasKey (encodeResourceContent (.textResourceContents u none t)) "mimeType" = false)
    ∧ (∀ u b, hasKey (encodeResourceContent (.blobResourceContent u none b)) "mimeType" = false) := by
  refine ⟨fun js i v => ?_, fun r => ?_, fun r => ?_, fun r => ?_, fun r => ?_,
    fun r => ?_, fun n => ?_, fun e => ?_, fun ed => ?_, fun p => ?_, fun p => ?_,
    fun r => ?_, fun t => ?_, fun _ _ => rfl, fun _ _ => rfl⟩
  · cases i <;> rfl
  · obtain ⟨js, i, res, e⟩ := r
    cases i <;> cases res <;> cases e <;> rfl
  · obtain ⟨js, i, res, e⟩ := r
    cases i <;> cases res <;> cases e <;> rfl
  · obtain ⟨js, i, res, e⟩ := r
    cases i <;> cases res <;> cases e <;> rfl
  · obtain ⟨js, i, m, p⟩ := r
    cases i <;> cases p <;> rfl
  · obtain ⟨js, i, m, p⟩ := r
    cases i <;> cases p <;> rfl
  · obtain ⟨js, m, p⟩ := n
    cases p <;> rfl
  · obtain ⟨js, i, ed⟩ := e
    cases i <;> rfl
  · obtain ⟨c, m, d⟩ := ed
    cases d <;> rfl
  · obtain ⟨args, nm, d⟩ := p
    cases args <;> cases d <;> rfl
  · obtain ⟨args, nm, d⟩ := p
    cases args <;> cases d <;> rfl
  · obtain ⟨u, mt, nm, d⟩ := r
    cases d <;> rfl
  · obtain ⟨u, mt, t⟩ := t
    cases mt <;> rfl

/-- Claim C3: every string that fails standard base64 decoding is rejected
by each image construction path — `ImageContentBuilder::data`,
`PromptMessageBuilder::content` with an `Image` value, and
`PromptMessage::new_image` — with an `InvalidParameters` error, regardless
of the other arguments. -/
theorem c3_invalid_base64_rejected (d : String) (h : base64Decode d = none) :
    ∀ (b : ImageContentBuilder) (pb : PromptMessageBuilder)
      (role : PromptMessageRole) (m : String),
      b.data d = .error (.invalidParameters "Image data must be valid base64")
      ∧ pb.content (.image ⟨d, m⟩)
          = .error (.invalidParameters "Image data must be valid base64")
      ∧ PromptMessage.new_image role d m
          = .error (.invalidParameters "Image data must be valid base64") := by
  intro b pb role m
  refine ⟨?_, ?_, ?_⟩
  · simp [ImageContentBuilder.data, h]
  · simp [PromptMessageBuilder.content, h]
  · simp [PromptMessage.new_image, h]

/-- Witness for C3 at the concrete non-base64 string `"%%%%"`. -/
theorem c3_witness :
    ImageContentBuilder.data {} "%%%%"
        = .error (.invalidParameters "Image data must be valid base64")
    ∧ PromptMessageBuilder.content {} (.image ⟨"%%%%", "image/png"⟩)
        = .error (.invalidParameters "Image data must be valid base64")
    ∧ PromptMessage.new_image .user "%%%%" "image/png"
        = .error (.invalidParameters "Image data must be valid base64") :=
  c3_invalid_base64_rejected "%%%%" rfl {} {} .user "image/png"

/-- Claim C4: every MIME string that does not start with `image/` is
rejected with an `InvalidParameters` error on each image construction path,
regardless of whether the data is valid base64. -/
theorem c4_non_image_mime_rejected (m : String) (h : strStarts m "image/" = false) :
    ∀ (b : ImageContentBuilder) (pb : PromptMessageBuilder)
      (role : PromptMessageRole) (d : String),
      b.mime_type m
        = .error (.invalidParameters "MIME type must be a valid image type (e.g. image/jpeg)")
      ∧ (∃ msg, pb.content (.image ⟨d, m⟩) = .error (.invalidParameters msg))
      ∧ (∃ msg, PromptMessage.new_image role d m = .error (.invalidParameters msg)) := by
  intro b pb role d
  refine ⟨by simp [ImageContentBuilder.mime_type, h], ?_, ?_⟩
  · cases hd : base64Decode d with
    | none =>
      exact ⟨"Image data must be valid base64",
        by simp [PromptMessageBuilder.content, hd]⟩
    | some bs =>
      exact ⟨"MIME type must be a valid image type (e.g. image/jpeg)",
        by simp [PromptMessageBuilder.content, hd, h]⟩
  · cases hd : base64Decode d with
    | none =>
      exact ⟨"Image data must be valid base64",
        by simp [PromptMessage.new_image, hd]⟩
    | some bs =>
      exact ⟨"MIME type must be a valid image type (e.g. image/jpeg)",
        by simp [PromptMessage.new_image, hd, h]⟩

/-- Witness for C4 at the concrete MIME string `"text/plain"` with valid
base64 data. -/
theorem c4_witness :
    ImageContentBuilder.mime_type {} "text/plain"
        = .error (.invalidParameters "MIME type must be a valid image type (e.g. image/jpeg)")
    ∧ (∃ msg, PromptMessageBuilder.content {} (.image ⟨"YWJj", "text/plain"⟩)
        = .error (.invalidParameters msg))
    ∧ (∃ msg, PromptMessage.new_image .user "YWJj" "text/plain"
        = .error (.invalidParameters msg)) :=
  c4_non_image_mime_rejected "text/plain" rfl {} {} .user "YWJj"

/-- Claim C5: for every valid standard base64 string `d` and MIME string
`m` with the `image/` class, both the builder path and
`PromptMessage::new_image` succeed, the built `ImageContent` stores `d`
verbatim, and base64-decoding the built object's data yields exactly the
bytes `d` encodes. -/
theorem c5_valid_image_construction (d m : String) (bs : List Nat)
    (hd : base64Decode d = some bs) (hm : strStarts m "image/" = true) :
    ∀ role : PromptMessageRole,
      ImageContentBuilder.data {} d = .ok ⟨d, ""⟩
      ∧ ImageContentBuilder.mime_type ⟨d, ""⟩ m = .ok ⟨d, m⟩
      ∧ ImageContentBuilder.build ⟨d, m⟩ = ⟨d, m⟩
      ∧ PromptMessage.new_image role d m = .ok ⟨.image ⟨d, m⟩, role⟩
      ∧ (ImageContentBuilder.build ⟨d, m⟩).data = d
      ∧ base64Decode ((ImageContentBuilder.build ⟨d, m⟩).data) = some bs := by
  intro role
  refine ⟨?_, ?_, rfl, ?_, rfl, ?_⟩
  · simp [ImageContentBuilder.data, hd]
  · simp [ImageContentBuilder.mime_type, hm]
  · simp [PromptMessage.new_image, hd, hm]
  · simpa [ImageContentBuilder.build] using hd

/-- Witness for C5 at `d = "YWJj"` (the base64 of the bytes of `"abc"`)
and `m = "image/png"`. -/
theorem c5_witness :
    ImageContentBuilder.data {} "YWJj" = .ok ⟨"YWJj", ""⟩
    ∧ ImageContentBuilder.mime_type ⟨"YWJj", ""⟩ "image/png" = .ok ⟨"YWJj", "image/png"⟩
    ∧ ImageContentBuilder.build ⟨"YWJj", "image/png"⟩ = ⟨"YWJj", "image/png"⟩
    ∧ PromptMessage.new_image .user "YWJj" "image/png"
        = .ok ⟨.image ⟨"YWJj", "image/png"⟩, .user⟩
    ∧ (ImageContentBuilder.build ⟨"YWJj", "image/png"⟩).data = "YWJj"
    ∧ base64Decode ((ImageContentBuilder.build ⟨"YWJj", "image/png"⟩).data)
        = some [97, 98, 99] :=
  c5_valid_image_construction "YWJj" "image/png" [97, 98, 99] rfl rfl .user

/-- Claim C6: `ResourceContent` decoding is discriminated by structural
field presence, never by `mimeType`: the cited text example decodes to the
text variant with its `text` preserved, the cited blob example decodes to
the blob variant with its `blob` preserved, an object with string `uri`
and `text` fields always decodes to the text variant whatever the
`mimeType`, and an object missing both `text` and `blob` fails to decode. -/
theorem c6_resource_content_decoding :
    decodeResourceContent (.obj [("uri", .str "str:///content"),
        ("mimeType", .str "text/plain"), ("text", .str "Hello world")])
      = some (.textResourceContents "str:///content" (some "text/plain") "Hello world")
    ∧ decodeResourceContent (.obj [("uri", .str "blob:///data"),
        ("mimeType", .str "application/octet-stream"), ("blob", .str "YWJj")])
      = some (.blobResourceContent "blob:///data" (some "application/octet-stream") "YWJj")
    ∧ (∀ o : List (String × Json), jGet o "text" = none → jGet o "blob" = none →
        decodeResourceContent (.obj o) = none)
    ∧ (∀ (o : List (String × Json)) (u t : String) (mt : Option String),
        jGet o "uri" = some (.str u) → jGet o "text" = some (.str t) →
        jNullableStr (jGet o "mimeType") = some mt →
        decodeResourceContent (.obj o) = some (.textResourceContents u mt t)) := by
  refine ⟨rfl, rfl, ?_, ?_⟩
  · intro o h1 h2
    have ht : decodeStringField o "text" = none := by simp [decodeStringField, h1]
    have hb : decodeStringField o "blob" = none := by simp [decodeStringField, h2]
    cases hu : decodeStringField o "uri" <;>
      cases hm : jNullableStr (jGet o "mimeType") <;>
        simp [decodeResourceContent, decodeRCText, decodeRCBlob, hu, hm, ht, hb]
  · intro o u t mt h1 h2 h3
    have hu : decodeStringField o "uri" = some u := by simp [decodeStringField, h1]
    have ht : decodeStringField o "text" = some t := by simp [decodeStringField, h2]
    simp [decodeResourceContent, decodeRCText, hu, ht, h3]

/-- Witness for C6: an object with neither `text` nor `blob` fails to
decode, and an object carrying both decodes to the text variant. -/
theorem c6_witness :
    decodeResourceContent (.obj [("uri", .str "x:///y")]) = none
    ∧ decodeResourceContent (.obj [("uri", .str "u"), ("blob", .str "b"),
        ("text", .str "t")]) = some (.textResourceContents "u" none "t") :=
  ⟨c6_resource_content_decoding.2.2.1 [("uri", .str "x:///y")] rfl rfl,
    c6_resource_content_decoding.2.2.2
      [("uri", .str "u"), ("blob", .str "b"), ("text", .str "t")]
      "u" "t" none rfl rfl rfl⟩

/-- The parsed form of `Url::parse("file:///a/b/test.txt")`: scheme
`file`, empty authority, path `/a/b/test.txt`. -/
def urlFileAbTest : Url := ⟨"file", some "", "/a/b/test.txt", false⟩

/-- The parsed form of `Url::parse("mailto:user@example.com")`, a
cannot-be-a-base URL with no path segments. -/
def urlMailto : Url := ⟨"mailto", none, "user@example.com", true⟩

/-- Counterexample to claim C8: supplying only the URI
`file:///a/b/test.txt` to `Resource::builder` (no explicit name) yields
the default name `"unnamed"`, not the URI's final path segment
`"test.txt"` — the derivation happens only through the separate
`name_from_uri` method. -/
theorem c8_counterexample :
    ((Resource.builder.uri urlFileAbTest).build).name = "unnamed"
    ∧ ((Resource.builder.uri urlFileAbTest).build).name ≠ "test.txt" :=
  ⟨rfl, by decide⟩

/-- Claim C8 as amended: a `Resource` built without any name-setting call
has the default name `"unnamed"` whatever the URI; the name is derived
from the URI only by the `name_from_uri` builder method, which over
`file:///a/b/test.txt` yields `"test.txt"` and over a URI with no path
segments yields `"unnamed"`. -/
theorem c8_name_default_and_name_from_uri :
    (∀ u : Url, ((Resource.builder.uri u).build).name = "unnamed")
    ∧ ((Resource.builder.name_from_uri urlFileAbTest).build).name = "test.txt"
    ∧ (∀ u : Url, u.cannotBeABase = true →
        ((Resource.builder.name_from_uri u).build).name = "unnamed") := by
  refine ⟨fun u => rfl, rfl, fun u h => ?_⟩
  simp [Resource.builder, ResourceBuilder.name_from_uri, ResourceBuilder.build,
    Url.path_segments, h]

/-- Witness for C8 at the concrete no-segment URL `mailto:user@example.com`. -/
theorem c8_witness :
    ((Resource.builder.name_from_uri urlMailto).build).name = "unnamed" :=
  c8_name_default_and_name_from_uri.2.2 urlMailto rfl

/-- Decoding an `Option<Value>` struct field never fails. -/
lemma jNullableOpt_total (x : Option Json) : ∃ v, jNullableOpt x = some v := by
  cases x with
  | none => exact ⟨none, rfl⟩
  | some v => cases v <;> exact ⟨_, rfl⟩

/-- Whenever the `JsonRpcNotification` shape decodes, the `JsonRpcRequest`
shape (whose required fields are the same and whose extra fields are all
optional) decodes as well. -/
lemma request_of_notification {j : Json} {n : JsonRpcNotification}
    (h : decodeJsonRpcNotification j = some n) :
    ∃ r, decodeJsonRpcRequest j = some r := by
  cases j with
  | obj o =>
    obtain ⟨i, hi⟩ := jNullableOpt_total (jGet o "id")
    cases hjs : decodeStringField o "jsonrpc" with
    | none => simp [decodeJsonRpcNotification, hjs] at h
    | some js =>
      cases hm : decodeStringField o "method" with
      | none => simp [decodeJsonRpcNotification, hjs, hm] at h
      | some m =>
        obtain ⟨p, hp⟩ := jNullableOpt_total (jGet o "params")
        exact ⟨⟨js, i, m, p⟩, by simp [decodeJsonRpcRequest, hjs, hm, hi, hp]⟩
  | null => simp [decodeJsonRpcNotification] at h
  | bool b => simp [decodeJsonRpcNotification] at h
  | num x => simp [decodeJsonRpcNotification] at h
  | str s => simp [decodeJsonRpcNotification] at h
  | arr l => simp [decodeJsonRpcNotification] at h

/-- Claim C10: `JsonRpcMessage` decoding tries the variants in declaration
order, so every JSON object with a string `jsonrpc` field and a string
`method` field decodes to the `Request` variant (with that `jsonrpc` and
`method`), whatever its `id` and `params`; and no JSON document ever
decodes to the `Notification` variant. -/
theorem c10_request_shadows_notification :
    (∀ (o : List (String × Json)) (s m : String),
        jGet o "jsonrpc" = some (.str s) → jGet o "method" = some (.str m) →
        ∃ r : JsonRpcRequest, decodeJsonRpcMessage (.obj o) = some (.request r)
          ∧ r.jsonrpc = s ∧ r.method = m)
    ∧ (∀ (j : Json) (n : JsonRpcNotification),
        decodeJsonRpcMessage j ≠ some (.notification n)) := by
  constructor
  · intro o s m h1 h2
    obtain ⟨i, hi⟩ := jNullableOpt_total (jGet o "id")
    obtain ⟨p, hp⟩ := jNullableOpt_total (jGet o "params")
    refine ⟨⟨s, i, m, p⟩, ?_, rfl, rfl⟩
    have hreq : decodeJsonRpcRequest (.obj o) = some ⟨s, i, m, p⟩ := by
      simp [decodeJsonRpcRequest, decodeStringField, h1, h2, hi, hp]
    simp [decodeJsonRpcMessage, hreq]
  · intro j n h
    cases hreq : decodeJsonRpcRequest j with
    | some r => simp [decodeJsonRpcMessage, hreq] at h
    | none =>
      cases hresp : decodeJsonRpcResponse j with
      | some r => simp [decodeJsonRpcMessage, hreq, hresp] at h
      | none =>
        cases hnot : decodeJsonRpcNotification j with
        | some n2 =>
          obtain ⟨r, hr⟩ := request_of_notification hnot
          exact Option.noConfusion (hreq ▸ hr)
        | none =>
          cases herr : decodeJsonRpcError j with
          | some e => simp [decodeJsonRpcMessage, hreq, hresp, hnot, herr] at h
          | none =>
            cases j <;> simp [decodeJsonRpcMessage, hreq, hresp, hnot, herr] at h

/-- Witness for C10: a concrete object with string `jsonrpc` and `method`
fields (and an `id`) decodes to a `Request`, and a concrete document never
decodes to a `Notification`. -/
theorem c10_witness :
    (∃ r : JsonRpcRequest,
        decodeJsonRpcMessage (.obj [("jsonrpc", .str "2.0"),
          ("id", .num 1), ("method", .str "ping")]) = some (.request r)
        ∧ r.jsonrpc = "2.0" ∧ r.method = "ping")
    ∧ decodeJsonRpcMessage (.obj [("jsonrpc", .str "2.0"), ("method", .str "ping")])
        ≠ some (.notification ⟨"2.0", "ping", none⟩) :=
  ⟨c10_request_shadows_notification.1
      [("jsonrpc", .str "2.0"), ("id", .num 1), ("method", .str "ping")]
      "2.0" "ping" rfl rfl,
    c10_request_shadows_notification.2
      (.obj [("jsonrpc", .str "2.0"), ("method", .str "ping")])
      ⟨"2.0", "ping", none⟩⟩

/-- An `Option<Value>` field holding a non-null value survives decoding. -/
lemma jNullableOpt_some_of_ne {v : Json} (h : v ≠ .null) :
    jNullableOpt (some v) = some (some v) := by
  cases v <;> simp_all [jNullableOpt]

/-- `ErrorData` round-trips through its serde encoding as long as its
open-ended `data` payload is not `Some(null)` (which collapses to `None`
on decode). -/
lemma errorData_roundtrip (ed : ErrorData) (h : ed.data ≠ some .null) :
    decodeErrorData (encodeErrorData ed) = some ed := by
  obtain ⟨c, msg, d⟩ := ed
  cases d with
  | none => rfl
  | some v =>
    have hv : v ≠ .null := by simpa using h
    cases v <;> simp_all [encodeErrorData, decodeErrorData, decodeIntField,
      decodeStringField, jGet, jNullableOpt, optField]

/-- The `Option<ErrorData>` response field recovers an encoded
`ErrorData`. -/
lemma jNullableErrorData_encode (ed : ErrorData) (h : ed.data ≠ some .null) :
    jNullableErrorData (some (encodeErrorData ed)) = some (some ed) := by
  have h1 : decodeErrorData (encodeErrorData ed) = some ed := errorData_roundtrip ed h
  obtain ⟨l, hl⟩ : ∃ l, encodeErrorData ed = .obj l := ⟨_, rfl⟩
  rw [hl] at h1 ⊢
  simp [jNullableErrorData, h1]

/-- `JsonRpcRequest` round-trips when neither `id` nor `params` is
`Some(null)`. -/
lemma request_roundtrip (r : JsonRpcRequest)
    (h1 : r.id ≠ some .null) (h2 : r.params ≠ some .null) :
    decodeJsonRpcRequest (encodeJsonRpcRequest r) = some r := by
  obtain ⟨js, i, m, p⟩ := r
  cases i with
  | none =>
    cases p with
    | none => rfl
    | some v =>
      have hv : v ≠ .null := by simpa using h2
      simp [encodeJsonRpcRequest, decodeJsonRpcRequest, decodeStringField,
        optField, jGet, jNullableOpt, jNullableOpt_some_of_ne hv]
  | some v =>
    have hv : v ≠ .null := by simpa using h1
    cases p with
    | none =>
      simp [encodeJsonRpcRequest, decodeJsonRpcRequest, decodeStringField,
        optField, jGet, jNullableOpt, jNullableOpt_some_of_ne hv]
    | some w =>
      have hw : w ≠ .null := by simpa using h2
      simp [encodeJsonRpcRequest, decodeJsonRpcRequest, decodeStringField,
        optField, jGet, jNullableOpt, jNullableOpt_some_of_ne hv, jNullableOpt_some_of_ne hw]

/-- An encoded `JsonRpcResponse` never matches the `JsonRpcRequest` shape:
it has no `method` key. -/
lemma request_fails_on_response (r : JsonRpcResponse) :
    decodeJsonRpcRequest (encodeJsonRpcResponse r) = none := by
  obtain ⟨js, i, res, e⟩ := r
  cases i <;> cases res <;> cases e <;> rfl

/-- `JsonRpcResponse` round-trips when none of its `id`, `result`, and
nested error `data` fields is `Some(null)`. -/
lemma response_roundtrip (r : JsonRpcResponse)
    (h1 : r.id ≠ some .null) (h2 : r.result ≠ some .null)
    (h3 : ∀ ed, r.error = some ed → ed.data ≠ some .null) :
    decodeJsonRpcResponse (encodeJsonRpcResponse r) = some r := by
  obtain ⟨js, i, res, e⟩ := r
  cases e with
  | none =>
    cases i with
    | none =>
      cases res with
      | none => rfl
      | some v =>
        have hv : v ≠ .null := by simpa using h2
        simp [encodeJsonRpcResponse, decodeJsonRpcResponse, decodeStringField,
          optField, jGet, jNullableOpt, jNullableErrorData, jNullableOpt_some_of_ne hv]
    | some v =>
      have hv : v ≠ .null := by simpa using h1
      cases res with
      | none =>
        simp [encodeJsonRpcResponse, decodeJsonRpcResponse, decodeStringField,
          optField, jGet, jNullableOpt, jNullableErrorData, jNullableOpt_some_of_ne hv]
      | some w =>
        have hw : w ≠ .null := by simpa using h2
        simp [encodeJsonRpcResponse, decodeJsonRpcResponse, decodeStringField,
          optField, jGet, jNullableOpt, jNullableErrorData, jNullableOpt_some_of_ne hv,
          jNullableOpt_some_of_ne hw]
  | some ed =>
    have hed : jNullableErrorData (some (encodeErrorData ed)) = some (some ed) :=
      jNullableErrorData_encode ed (h3 ed rfl)
    cases i with
    | none =>
      cases res with
      | none =>
        simp [encodeJsonRpcResponse, decodeJsonRpcResponse, decodeStringField,
          optField, jGet, jNullableOpt, hed]
      | some v =>
        have hv : v ≠ .null := by simpa using h2
        simp [encodeJsonRpcResponse, decodeJsonRpcResponse, decodeStringField,
          optField, jGet, jNullableOpt, hed, jNullableOpt_some_of_ne hv]
    | some v =>
      have hv : v ≠ .null := by simpa using h1
      cases res with
      | none =>
        simp [encodeJsonRpcResponse, decodeJsonRpcResponse, decodeStringField,
          optField, jGet, jNullableOpt, hed, jNullableOpt_some_of_ne hv]
      | some w =>
        have hw : w ≠ .null := by simpa using h2
        simp [encodeJsonRpcResponse, decodeJsonRpcResponse, decodeStringField,
          optField, jGet, jNullableOpt, hed, jNullableOpt_some_of_ne hv,
          jNullableOpt_some_of_ne hw]

/-- `Prompt` round-trips through its serde encoding. -/
lemma prompt_roundtrip (p : Prompt) : decodePrompt (encodePrompt p) = some p := by
  obtain ⟨args, n, d⟩ := p
  cases args <;> cases d <;> rfl

/-- `Resource` round-trips through its serde encoding. -/
lemma resource_roundtrip (r : Resource) : decodeResource (encodeResource r) = some r := by
  obtain ⟨u, mt, n, d⟩ := r
  cases d <;> rfl

/-- `PromptMessage` round-trips through its serde encoding. -/
lemma promptMessage_roundtrip (pm : PromptMessage) :
    decodePromptMessage (encodePromptMessage pm) = some pm := by
  obtain ⟨c, role⟩ := pm
  cases c with
  | text t => cases role <;> rfl
  | image i => cases role <;> rfl
  | resource er =>
    obtain ⟨⟨u, mt, t⟩⟩ := er
    cases mt <;> cases role <;> rfl

/-- An encoded `JsonRpcNotification` is captured by the earlier
`JsonRpcRequest` variant when the message union is decoded: same
`jsonrpc`, `method`, and `params`, with `id = None`. -/
lemma notification_decodes_as_request (n : JsonRpcNotification)
    (h : n.params ≠ some .null) :
    decodeJsonRpcMessage (encodeJsonRpcMessage (.notification n))
      = some (.request ⟨n.jsonrpc, none, n.method, n.params⟩) := by
  obtain ⟨js, m, p⟩ := n
  cases p with
  | none => rfl
  | some v =>
    have hv : v ≠ .null := by simpa using h
    have hreq : decodeJsonRpcRequest (encodeJsonRpcNotification ⟨js, m, some v⟩)
        = some ⟨js, none, m, some v⟩ := by
      simp [encodeJsonRpcNotification, decodeJsonRpcRequest, decodeStringField,
        optField, jGet, jNullableOpt, jNullableOpt_some_of_ne hv]
    simp [encodeJsonRpcMessage, decodeJsonRpcMessage, hreq]

/-- An encoded `JsonRpcError` is captured by the earlier `JsonRpcResponse`
variant when the message union is decoded: same `jsonrpc` and `id`, with
`result = None` and the error carried in the `error` field. -/
lemma error_decodes_as_response (e : JsonRpcError)
    (h1 : e.id ≠ some .null) (h2 : e.error.data ≠ some .null) :
    decodeJsonRpcMessage (encodeJsonRpcMessage (.error e))
      = some (.response ⟨e.jsonrpc, e.id, none, some e.error⟩) := by
  obtain ⟨js, i, ed⟩ := e
  have hed : jNullableErrorData (some (encodeErrorData ed)) = some (some ed) :=
    jNullableErrorData_encode ed (by simpa using h2)
  have hreqfail : decodeJsonRpcRequest (encodeJsonRpcError ⟨js, i, ed⟩) = none := by
    cases i <;> rfl
  have hresp : decodeJsonRpcResponse (encodeJsonRpcError ⟨js, i, ed⟩)
      = some ⟨js, i, none, some ed⟩ := by
    cases i with
    | none =>
      simp [encodeJsonRpcError, decodeJsonRpcResponse, decodeStringField,
        optField, jGet, jNullableOpt, hed]
    | some v =>
      have hv : v ≠ .null := by simpa using h1
      simp [encodeJsonRpcError, decodeJsonRpcResponse, decodeStringField,
        optField, jGet, jNullableOpt, jNullableOpt_some_of_ne hv, hed]
  simp [encodeJsonRpcMessage, decodeJsonRpcMessage, hreqfail, hresp]

/-- Counterexample to claim C1 as stated: the decode-encode round trip
fails on the `Notification` variant (its encoding decodes to the earlier,
structurally overlapping `Request` variant), on the `Error` variant (its
encoding decodes to the `Response` variant), and on a `Request` whose
`id` is `Some(Value::Null)` (the null collapses to `None` on decode). -/
theorem c1_counterexample :
    decodeJsonRpcMessage (encodeJsonRpcMessage (.notification ⟨"2.0", "notify", none⟩))
      = some (.request ⟨"2.0", none, "notify", none⟩)
    ∧ decodeJsonRpcMessage (encodeJsonRpcMessage (.notification ⟨"2.0", "notify", none⟩))
      ≠ some (.notification ⟨"2.0", "notify", none⟩)
    ∧ decodeJsonRpcMessage
        (encodeJsonRpcMessage (.error ⟨"2.0", some (.num 1), ⟨-32601, "nope", none⟩⟩))
      ≠ some (.error ⟨"2.0", some (.num 1), ⟨-32601, "nope", none⟩⟩)
    ∧ decodeJsonRpcMessage (encodeJsonRpcMessage (.request ⟨"2.0", some .null, "m", none⟩))
      ≠ some (.request ⟨"2.0", some .null, "m", none⟩) := by
  refine ⟨rfl, ?_, ?_, ?_⟩
  · intro hc
    have h2 := Option.some.inj hc
    simp at h2
  · intro hc
    have h2 := Option.some.inj hc
    simp at h2
  · intro hc
    have h2 := Option.some.inj hc
    simp at h2

/-- Claim C1 as amended: `decode ∘ encode` is the identity on every
`Prompt`, `PromptMessage`, and `Resource`; for `JsonRpcMessage` it is the
identity on the `Request`, `Response`, and `Nil` variants provided no
`Option<Value>` field (`id`, `params`, `result`, nested error `data`)
holds `Some(Value::Null)`; an encoded `Notification` instead decodes to
the `Request` carrying the same `jsonrpc`, `method`, and `params`, and an
encoded `Error` instead decodes to the `Response` carrying the same
`jsonrpc`, `id`, and error value, so those two variants never round-trip. -/
theorem c1_roundtrip_amended :
    (∀ p : Prompt, decodePrompt (encodePrompt p) = some p)
    ∧ (∀ pm : PromptMessage, decodePromptMessage (encodePromptMessage pm) = some pm)
    ∧ (∀ r : Resource, decodeResource (encodeResource r) = some r)
    ∧ (∀ r : JsonRpcRequest, r.id ≠ some .null → r.params ≠ some .null →
        decodeJsonRpcMessage (encodeJsonRpcMessage (.request r)) = some (.request r))
    ∧ (∀ r : JsonRpcResponse, r.id ≠ some .null → r.result ≠ some .null →
        (∀ ed, r.error = some ed → ed.data ≠ some .null) →
        decodeJsonRpcMessage (encodeJsonRpcMessage (.response r)) = some (.response r))
    ∧ decodeJsonRpcMessage (encodeJsonRpcMessage .nil) = some .nil
    ∧ (∀ n : JsonRpcNotification, n.params ≠ some .null →
        decodeJsonRpcMessage (encodeJsonRpcMessage (.notification n))
          = some (.request ⟨n.jsonrpc, none, n.method, n.params⟩))
    ∧ (∀ e : JsonRpcError, e.id ≠ some .null → e.error.data ≠ some .null →
        decodeJsonRpcMessage (encodeJsonRpcMessage (.error e))
          = some (.response ⟨e.jsonrpc, e.id, none, some e.error⟩)) := by
  refine ⟨prompt_roundtrip, promptMessage_roundtrip, resource_roundtrip, ?_, ?_,
    rfl, notification_decodes_as_request, error_decodes_as_response⟩
  · intro r h1 h2
    simp [encodeJsonRpcMessage, decodeJsonRpcMessage, request_roundtrip r h1 h2]
  · intro r h1 h2 h3
    simp [encodeJsonRpcMessage, decodeJsonRpcMessage, request_fails_on_response,
      response_roundtrip r h1 h2 h3]

/-- Witness for C1 at concrete values of each envelope variant. -/
theorem c1_witness :
    decodeJsonRpcMessage
        (encodeJsonRpcMessage (.request ⟨"2.0", some (.num 1), "sub", none⟩))
      = some (.request ⟨"2.0", some (.num 1), "sub", none⟩)
    ∧ decodeJsonRpcMessage
        (encodeJsonRpcMessage (.response ⟨"2.0", some (.num 1), some (.str "ok"), none⟩))
      = some (.response ⟨"2.0", some (.num 1), some (.str "ok"), none⟩)
    ∧ decodeJsonRpcMessage (encodeJsonRpcMessage (.notification ⟨"2.0", "ping", none⟩))
      = some (.request ⟨"2.0", none, "ping", none⟩)
    ∧ decodeJsonRpcMessage
        (encodeJsonRpcMessage (.error ⟨"2.0", some (.num 2), ⟨-32700, "bad", none⟩⟩))
      = some (.response ⟨"2.0", some (.num 2), none, some ⟨-32700, "bad", none⟩⟩) :=
  ⟨c1_roundtrip_amended.2.2.2.1 ⟨"2.0", some (.num 1), "sub", none⟩
      (by simp) (by simp),
    c1_roundtrip_amended.2.2.2.2.1 ⟨"2.0", some (.num 1), some (.str "ok"), none⟩
      (by simp) (by simp) (by simp),
    c1_roundtrip_amended.2.2.2.2.2.2.1 ⟨"2.0", "ping", none⟩ (by simp),
    c1_roundtrip_amended.2.2.2.2.2.2.2 ⟨"2.0", some (.num 2), ⟨-32700, "bad", none⟩⟩
      (by simp) (by simp)⟩
